import Mathlib

/- Formal model of the real-time voice-conversion pipeline of this
   repository: `rvc/infer/realtime_infer.py` (the chunk processor and the
   resource session), `rvc/lib/realtime_audio_utils.py` (the device-level
   audio callback) and `tabs/realtime/realtime.py` (the stream scheduler's
   processing callback).

   Modelling conventions.  Audio blocks are lists of rational samples
   (mono, single channel, matching the `channels=(1, 1)` stream
   configuration in `start_audio_stream`).  Delegated collaborators --
   the Hubert embedder, the RMVPE/FCPE pitch predictors, the autotune
   pass, the retrieval index lookup, the generator network, the librosa
   resampler and the RMS envelope matcher -- are oracle parameters whose
   results live in `Except PErr`, so a raised Python exception is an
   explicit `.error` value.  The two transcendental per-sample scalar maps
   of the source (`1127*ln(1+f/700)` and `2^(pitch/12)`) are passed as a
   rational-valued function and a rational factor; their defining real
   equations are stated separately where a claim depends on them.
   Tensor broadcasting of the per-frame protection mask is modelled as a
   pointwise zip.  Machine floats are modelled as exact rationals. -/

namespace RVC

attribute [local semireducible] Rat.add Rat.mul Rat.sub Rat.inv

/-- Python exception values that cross component boundaries. -/
inductive PErr where
  | nameError
  | vadError
  | genError
  | loadError
  | procError
  deriving DecidableEq, Repr

/-- An audio block: a mono sequence of float samples. -/
abbrev Audio := List ℚ

/-- A feature tensor: one embedding vector per analysis frame. -/
abbrev Feats := List (List ℚ)

/-- Silence block, `np.zeros(n)` / `np.zeros_like` on a length-`n` block. -/
def zeros (n : ℕ) : Audio := List.replicate n 0

/- ------------------------------------------------------------------
   Device-level audio callback: `realtime_audio_utils.audio_callback`
   (realtime_audio_utils.py lines 28-50).  The registered processing
   function may raise (`.error`), return `None` (`.ok none`) or return a
   block (`.ok (some d)`); `outdata` is written either with the processed
   block (when the shape matches) or with zeros.  Shapes of this mono
   stream are lengths.  The model is a total function: the callback
   returns normally on every input. -/

def audio_callback (cb : Option (Audio → Except PErr (Option Audio)))
    (indata : Audio) (outLen : ℕ) : Audio :=
  match cb with
  | none => zeros outLen
  | some f =>
    match f indata with
    | .error _ => zeros outLen
    | .ok none => zeros outLen
    | .ok (some d) => if d.length = outLen then d else zeros outLen

/- ------------------------------------------------------------------
   Coarse pitch quantization (realtime_infer.py lines 241-246):
     f0_mel = 1127 * np.log(1 + f0_fine / 700)
     f0_mel[f0_mel > 0] = (f0_mel[f0_mel > 0] - mel_min) * 254 / (mel_max - mel_min) + 1
     f0_mel[f0_mel <= 1] = 1
     f0_mel[f0_mel > 255] = 255
     f0_course = np.rint(f0_mel).astype(int)
   `coarse_of_mel` is the per-element effect of the three in-place mask
   assignments; `rintQ` is `np.rint` (round half to even). -/

/-- Round half to even, the behaviour of `np.rint`. -/
def rintQ (q : ℚ) : ℤ :=
  if q - ⌊q⌋ < 1/2 then ⌊q⌋
  else if (1:ℚ)/2 < q - ⌊q⌋ then ⌊q⌋ + 1
  else if ⌊q⌋ % 2 = 0 then ⌊q⌋ else ⌊q⌋ + 1

/-- Linear rescaling applied to the strictly positive mel values
(the `f0_mel[f0_mel > 0] = ...` mask assignment). -/
def mel_rescaled (melMin melMax m : ℚ) : ℚ :=
  if 0 < m then (m - melMin) * 254 / (melMax - melMin) + 1 else m

/-- Lower clamp `f0_mel[f0_mel <= 1] = 1`. -/
def clamp_low (x : ℚ) : ℚ := if x ≤ 1 then 1 else x

/-- Upper clamp `f0_mel[f0_mel > 255] = 255`. -/
def clamp_high (x : ℚ) : ℚ := if 255 < x then 255 else x

/-- Per-element mel rescaling and clamping of the coarse-pitch code. -/
def coarse_of_mel (melMin melMax m : ℚ) : ℚ :=
  clamp_high (clamp_low (mel_rescaled melMin melMax m))

/-- Full coarse-pitch computation on a list of mel-scaled pitch values. -/
def f0_to_coarse (melMin melMax : ℚ) (mels : List ℚ) : List ℤ :=
  mels.map fun m => rintQ (coarse_of_mel melMin melMax m)

/-- The real-valued mel transform `1127 * log(1 + f / 700)` applied to a
fine pitch value before `coarse_of_mel` (realtime_infer.py line 242). -/
noncomputable def mel_scale (f : ℝ) : ℝ := 1127 * Real.log (1 + f / 700)

/- ------------------------------------------------------------------
   Data model of the chunk processor (`RealtimeVoiceConverter`). -/

/-- Constants owned by the `vc_pipeline` object (an instance of the
original `Pipeline` class, constructed from the target sample rate when a
model loads).  Modelled from the spec: the `Pipeline` class itself is not
part of the sources, only its fields `t_pad`, `t_pad_tgt`, `window`,
`sample_rate`, `f0_mel_min`, `f0_mel_max` are read by the chunk
processor; the pad widths derive from a context-seconds constant at the
feature rate and at the target rate respectively. -/
structure Pipe where
  tPad : ℕ
  tPadTgt : ℕ
  window : ℕ
  sampleRate : ℕ
  f0MelMin : ℚ
  f0MelMax : ℚ
  deriving DecidableEq, Repr

/-- Mutable resource state of `RealtimeVoiceConverter`: which heavyweight
handles are present, plus the identity bookkeeping used by the load
operations.  Handles are modelled by presence flags; identity fields by
the values compared in the source. -/
structure Session where
  hubertLoaded : Bool
  netGLoaded : Bool
  pipe : Option Pipe
  useF0 : Bool
  tgtSr : Option ℕ
  indexLoaded : Bool
  currentModelPath : Option String
  sid : Option ℤ
  deriving DecidableEq, Repr

/-- Readiness predicate `is_ready` (realtime_infer.py lines 175-176):
hubert model, generator and pipeline object all present. -/
def is_ready (s : Session) : Bool :=
  s.hubertLoaded && s.netGLoaded && s.pipe.isSome

/-- Pitch extraction method selector passed to `process_chunk`. -/
inductive F0Method where
  | rmvpe
  | fcpe
  | other
  deriving DecidableEq, Repr

/-- Per-call conversion settings of `process_chunk`.  `shift` stands for
the factor `2 ** (pitch_change / 12)` by which the fine pitch curve is
multiplied. -/
structure Settings where
  shift : ℚ
  f0Method : F0Method
  indexRate : ℚ
  protect : ℚ
  autotune : Bool
  autotuneStrength : ℚ
  volMix : ℚ
  deriving DecidableEq, Repr

/-- Delegated collaborators of the chunk processor.  Fallible Python
calls return `Except PErr`; `melScale` is the rational stand-in for the
transcendental mel map applied pointwise at line 242. -/
structure Oracles where
  hpf : Audio → Audio
  rmvpe : Audio → Except PErr Audio
  fcpe : Audio → ℕ → Except PErr Audio
  autotuneF0 : Audio → ℚ → Except PErr Audio
  hubert : Audio → Except PErr Feats
  retrieve : Feats → ℚ → Except PErr Feats
  gen : Feats → ℕ → Option (List ℤ) → Option Audio → Except PErr Audio
  resample : Audio → ℕ → ℕ → Audio
  changeRms : Audio → Audio → ℚ → Audio
  melScale : ℚ → ℚ

/-- Instrumentation record returned next to the audio: which delegated
calls ran and the exact values handed to generation and produced by the
trim step. -/
structure Trace where
  hubertCalled : Bool := false
  pitchCalled : Bool := false
  retrieveCalled : Bool := false
  genCalled : Bool := false
  pLen : ℕ := 0
  genPLen : ℕ := 0
  genFeats : Feats := []
  genCoarse : Option (List ℤ) := none
  genFine : Option Audio := none
  rawOut : Audio := []
  trimmed : Audio := []
  deriving DecidableEq, Repr

/- ------------------------------------------------------------------
   Helper functions of the chunk pipeline. -/

/-- Symmetric reflect padding, `np.pad(a, (p, p), mode='reflect')`
(well-defined content for `p ≤ a.length - 1`, as in the source usage). -/
def reflect_pad (a : Audio) (p : ℕ) : Audio :=
  ((a.drop 1).take p).reverse ++ a ++ (a.reverse.drop 1).take p

/-- Temporal upsampling by a fixed factor of 2 along the frame axis,
`torch.nn.functional.interpolate(..., scale_factor=2)` in nearest mode:
every frame is duplicated. -/
def upsample2 {α : Type} : List α → List α
  | [] => []
  | x :: xs => x :: x :: upsample2 xs

/-- Per-frame voiceless-protection mask (realtime_infer.py lines
299-301): 1 where the fine pitch is strictly positive, the protection
strength elsewhere. -/
def protect_mask (f0 : Audio) (protect : ℚ) : Audio :=
  f0.map fun v => if 0 < v then 1 else protect

/-- Mask-weighted blend of one frame vector pair:
`x * m + y * (1 - m)` pointwise. -/
def blend_frame (m : ℚ) (x y : List ℚ) : List ℚ :=
  List.zipWith (fun a b => a * m + b * (1 - m)) x y

/-- Per-frame protection blend
`feats * mask + feats_for_protection * (1 - mask)` (line 304), with the
broadcast modelled as a pointwise zip over frames. -/
def mix3 (feats orig : Feats) (mask : Audio) : Feats :=
  (feats.zip (orig.zip mask)).map fun p => blend_frame p.2.2 p.1 p.2.1

/-- Python slice `a[t:-t]` (the symmetric trim of the raw output). -/
def slice_trim (a : Audio) (t : ℕ) : Audio :=
  if t = 0 then [] else (a.drop t).take (a.length - 2 * t)

/-- Trim step of `process_chunk` (realtime_infer.py lines 342-358): trim
symmetrically when the raw output is long enough, otherwise fall back to
silence of the expected length or to the raw output per the half-length
heuristic. -/
def trim_output (raw : Audio) (tPadTgt expected : ℕ) : Audio :=
  if 2 * tPadTgt < raw.length then slice_trim raw tPadTgt
  else if 2 * raw.length < expected then zeros expected
  else raw

/-- Final normalization (realtime_infer.py lines 392-395): if the peak
absolute sample exceeds 0.99, rescale so the peak is exactly 0.99. -/
def normalize_out (a : Audio) : Audio :=
  if 1 < (a.map fun x => |x|).foldr max 0 / (99/100) then
    a.map fun x => x / ((a.map fun y => |y|).foldr max 0 / (99/100))
  else a

/- ------------------------------------------------------------------
   The chunk processor, `RealtimeVoiceConverter.process_chunk`
   (realtime_infer.py lines 178-400), split into its pitch stage, its
   retrieval stage and the remainder of the pipeline. -/

/-- Pitch stage of `process_chunk` (lines 205-249, executed only when the
model uses pitch): predictor dispatch on the method name, optional
autotune, semitone shift, and coarse quantization.  Returns the coarse
and fine pitch sequences. -/
def pitch_stage (O : Oracles) (pipe : Pipe) (stg : Settings)
    (padded : Audio) (pLen : ℕ) : Except PErr (List ℤ × Audio) :=
  match (match stg.f0Method with
         | .rmvpe => O.rmvpe padded
         | .fcpe => O.fcpe padded pLen
         | .other => .ok (zeros pLen) : Except PErr Audio) with
  | .error e => .error e
  | .ok f0raw =>
    match (if stg.autotune then O.autotuneF0 f0raw stg.autotuneStrength
           else .ok f0raw : Except PErr Audio) with
    | .error e => .error e
    | .ok f0at =>
      let fine := f0at.map fun v => v * stg.shift
      .ok (f0_to_coarse pipe.f0MelMin pipe.f0MelMax (fine.map O.melScale), fine)

/-- Retrieval stage (lines 275-276): nearest-neighbour blending runs only
when an index is loaded and the blend rate is positive. -/
def retrieve_stage (O : Oracles) (s : Session) (stg : Settings)
    (feats : Feats) : Except PErr Feats :=
  if s.indexLoaded = true ∧ 0 < stg.indexRate then O.retrieve feats stg.indexRate
  else .ok feats

/-- Remainder of the pipeline after feature extraction: protection copy,
retrieval, 2x upsampling, length alignment, protection blend, generation,
trim, envelope matching, normalization. -/
def after_feats (O : Oracles) (s : Session) (stg : Settings) (pipe : Pipe)
    (tgt : ℕ) (input : Audio) (pLen : ℕ)
    (pitchData : Option (List ℤ × Audio)) (feats0 : Feats) :
    Except PErr (Audio × Trace) :=
  let featsProt := if s.useF0 = true ∧ stg.protect < 1/2 then some feats0 else none
  match retrieve_stage O s stg feats0 with
  | .error e => .error e
  | .ok feats1 =>
    let feats2 := upsample2 feats1
    let genPLen := min feats2.length pLen
    let pitchT := pitchData.map fun p => (p.1.take genPLen, p.2.take genPLen)
    let feats3 :=
      match featsProt, pitchT with
      | some fp, some pt =>
        mix3 feats2 ((upsample2 fp).take feats2.length)
          ((protect_mask pt.2 stg.protect).take feats2.length)
      | _, _ => feats2
    match O.gen feats3 genPLen (pitchT.map Prod.fst) (pitchT.map Prod.snd) with
    | .error e => .error e
    | .ok raw =>
      let expected := input.length * tgt / pipe.sampleRate
      let trimmed0 := trim_output raw pipe.tPadTgt expected
      let trimmed1 :=
        if stg.volMix < 1 ∧ 0 ≤ stg.volMix then
          let orig := if tgt ≠ pipe.sampleRate
                      then O.resample input pipe.sampleRate tgt else input
          let adj := if trimmed0.length < orig.length
                     then trimmed0 ++ zeros (orig.length - trimmed0.length)
                     else trimmed0.take orig.length
          O.changeRms orig adj stg.volMix
        else trimmed0
      .ok (normalize_out trimmed1,
        { hubertCalled := true
          pitchCalled := s.useF0
          retrieveCalled := decide (s.indexLoaded = true ∧ 0 < stg.indexRate)
          genCalled := true
          pLen := pLen
          genPLen := genPLen
          genFeats := feats3
          genCoarse := pitchT.map Prod.fst
          genFine := pitchT.map Prod.snd
          rawOut := raw
          trimmed := trimmed0 })

/-- The chunk processor `process_chunk`.  When the session is not ready
it returns silence of the input's length without touching any delegated
resource; otherwise it runs the filter, reflect padding, the pitch stage,
the embedder and `after_feats`.  There is no exception handler anywhere
in this function: every `.error` of a delegated call propagates to the
caller. -/
def process_chunk (O : Oracles) (s : Session) (stg : Settings)
    (input : Audio) : Except PErr (Audio × Trace) :=
  match s.pipe, s.tgtSr, is_ready s with
  | some pipe, some tgt, true =>
    let padded := reflect_pad (O.hpf input) pipe.tPad
    let pLen := padded.length / pipe.window
    match (if s.useF0 = true then
             match pitch_stage O pipe stg padded pLen with
             | .error e => .error e
             | .ok p => .ok (some p)
           else .ok none : Except PErr (Option (List ℤ × Audio))) with
    | .error e => .error e
    | .ok pitchData =>
      match O.hubert padded with
      | .error e => .error e
      | .ok feats0 => after_feats O s stg pipe tgt input pLen pitchData feats0
  | _, _, _ => .ok (zeros input.length, {})

/- ------------------------------------------------------------------
   Resource session load operation `_load_rvc_model` (realtime_infer.py
   lines 73-126).  `torchLoad` is the model container parse; the returned
   flag records whether the heavy load path ran.  `mkPipe` rebuilds the
   pipeline constants from the new target rate. -/

/-- Fields read from the parsed model container. -/
structure Cpt where
  tgtSr : ℕ
  useF0 : Bool
  deriving DecidableEq, Repr

/-- Generator load: identity short-circuit on `(model_path, sid)` when a
generator is present, else parse and install, clearing the generator and
pipeline state on failure.  Returns (success, new state, heavy load ran). -/
def load_rvc_model (torchLoad : String → Except PErr Cpt) (mkPipe : ℕ → Pipe)
    (s : Session) (path : String) (sid : ℤ) : Bool × Session × Bool :=
  if s.netGLoaded = true ∧ s.currentModelPath = some path ∧ s.sid = some sid then
    (true, s, false)
  else
    match torchLoad path with
    | .ok c =>
      (true, { s with netGLoaded := true
                      tgtSr := some c.tgtSr
                      useF0 := c.useF0
                      currentModelPath := some path
                      sid := some sid
                      pipe := some (mkPipe c.tgtSr) }, true)
    | .error _ =>
      (false, { s with netGLoaded := false, pipe := none }, true)

/- ------------------------------------------------------------------
   Stream scheduler processing callback, `audio_processing_callback`
   (realtime.py lines 76-159).  Its collaborators: the librosa resampler,
   the optional VAD processor (whose `is_speech` may raise), and the
   chunk processor call, all passed as parameters.  The final
   shape-reconciliation step (line 143) evaluates the expression
   `output_chunk_stream_sr.shape != mic_chunk_float_32.shape`, and the
   name `mic_chunk_float_32` is bound nowhere in the function or module
   (the parameter is spelled `mic_chunk_float32`), so reaching that line
   raises `NameError`; the model returns `.error .nameError` there. -/

/-- Instrumentation of the scheduler callback: whether the chunk
processor was invoked and the intermediate post-VAD/post-RVC block. -/
structure CbTrace where
  rvcInvoked : Bool := false
  processed : Option Audio := none
  deriving DecidableEq, Repr

/-- The scheduler callback.  `ready` is `rt_converter.is_ready()`,
`active` is `is_realtime_processing_active`, `tgtSr` is
`rt_converter.tgt_sr`, `proc` is the `rt_converter.process_chunk` call
with the current settings applied. -/
def audio_processing_callback
    (resample : Audio → ℕ → ℕ → Audio)
    (vad : Option (Audio → Except PErr Bool))
    (vadEnabled : Bool)
    (proc : Audio → Except PErr Audio)
    (ready active : Bool) (tgtSr : Option ℕ)
    (mic : Audio) : Except PErr Audio × CbTrace :=
  if ready = false ∨ active = false then (.ok (zeros mic.length), {})
  else
    let mic16 := resample mic 48000 16000
    let gate : Option Audio :=
      match vadEnabled, vad with
      | true, some v =>
        match v mic16 with
        | .ok false => some (zeros mic16.length)
        | .ok true => none
        | .error _ => none
      | _, _ => none
    let pr : Audio × Bool :=
      match gate with
      | some z => (z, false)
      | none =>
        match proc mic16 with
        | .ok r => (r, true)
        | .error _ => (zeros mic16.length, true)
    match tgtSr with
    | none => (.ok (zeros mic.length), { rvcInvoked := pr.2, processed := some pr.1 })
    | some t =>
      let _outStream := resample pr.1 t 48000
      (.error .nameError, { rvcInvoked := pr.2, processed := some pr.1 })

/- ------------------------------------------------------------------
   Concrete instances used by the counterexample and the witnesses. -/

/-- Example collaborator bundle: identity filter and resampler, pitch
predictors returning silent curves, a two-frame embedder, identity
retrieval, a generator returning a one-sample waveform. -/
def exOracles : Oracles where
  hpf := id
  rmvpe := fun a => .ok (List.replicate (a.length / 320) 0)
  fcpe := fun _ n => .ok (List.replicate n 0)
  autotuneF0 := fun a _ => .ok a
  hubert := fun _ => .ok [[1], [1]]
  retrieve := fun fe _ => .ok fe
  gen := fun _ _ _ _ => .ok [1]
  resample := fun a _ _ => a
  changeRms := fun _ t _ => t
  melScale := id

/-- Example collaborators whose generator raises. -/
def exOraclesGenErr : Oracles :=
  { exOracles with gen := fun _ _ _ _ => .error .genError }

/-- Example pipeline constants: pad 2 samples, trim 1 sample, window 2,
feature rate 16000. -/
def exPipe : Pipe :=
  { tPad := 2, tPadTgt := 1, window := 2, sampleRate := 16000,
    f0MelMin := 0, f0MelMax := 2595 }

/-- Ready session for a non-pitch model with target rate 32000. -/
def exSession : Session :=
  { hubertLoaded := true, netGLoaded := true, pipe := some exPipe,
    useF0 := false, tgtSr := some 32000, indexLoaded := false,
    currentModelPath := some "model.pth", sid := some 0 }

/-- Ready session for a pitch-using model. -/
def exSessionF0 : Session := { exSession with useF0 := true }

/-- Ready pitch-using session with a loaded retrieval index. -/
def exSessionIdx : Session := { exSessionF0 with indexLoaded := true }

/-- Session whose generator is missing (not ready). -/
def exSessionNotReady : Session := { exSession with netGLoaded := false }

/-- Neutral settings: no shift, FCPE, retrieval off, protection off
(protect = 0.5), autotune off, envelope mix 1. -/
def exSettings : Settings :=
  { shift := 1, f0Method := .fcpe, indexRate := 0, protect := 1/2,
    autotune := false, autotuneStrength := 0, volMix := 1 }

/-- Settings with voiceless protection and retrieval blending active. -/
def exSettingsProt : Settings :=
  { exSettings with protect := 0, indexRate := 1 }

/-- Empty initial session, as constructed by `RealtimeVoiceConverter.__init__`. -/
def exSessionEmpty : Session :=
  { hubertLoaded := false, netGLoaded := false, pipe := none,
    useF0 := false, tgtSr := none, indexLoaded := false,
    currentModelPath := none, sid := none }

/-- Example model container parse result. -/
def exCpt : Cpt := { tgtSr := 40000, useF0 := true }

/-- Example parse oracle: every path parses to `exCpt`. -/
def exTorchLoad : String → Except PErr Cpt := fun _ => .ok exCpt

/-- Example pipeline constructor used by the load operation. -/
def exMkPipe : ℕ → Pipe := fun sr => { exPipe with tPadTgt := sr / 16000 }

/-- The session state after a first successful generator load from
`exSessionEmpty` (spelled out for the idempotence witness). -/
def exSessionLoaded : Session :=
  { hubertLoaded := false, netGLoaded := true, pipe := some (exMkPipe 40000),
    useF0 := true, tgtSr := some 40000, indexLoaded := false,
    currentModelPath := some "model.pth", sid := some 0 }

/- ==================================================================
   Lemmas and claim theorems. -/

lemma upsample2_length {α : Type} (l : List α) :
    (upsample2 l).length = 2 * l.length := by
  induction l with
  | nil => simp [upsample2]
  | cons x xs ih => simp [upsample2, ih]; ring

lemma rintQ_bounds (q : ℚ) (h1 : 1 ≤ q) (h2 : q ≤ 255) :
    1 ≤ rintQ q ∧ rintQ q ≤ 255 := by
  have hf1 : (1 : ℤ) ≤ ⌊q⌋ := by
    rw [Int.le_floor]; exact_mod_cast h1
  have hf2 : ⌊q⌋ ≤ 255 := by
    have h : ⌊q⌋ ≤ ⌊(255 : ℚ)⌋ := Int.floor_le_floor h2
    simpa using h
  have hfl : (⌊q⌋ : ℚ) ≤ q := Int.floor_le q
  have hsucc : ¬(q - ⌊q⌋ < 1/2) → ⌊q⌋ + 1 ≤ 255 := by
    intro ha
    have hhalf : (1:ℚ)/2 ≤ q - ⌊q⌋ := le_of_not_lt ha
    have hq : (⌊q⌋ : ℚ) < 255 := by linarith
    have : ⌊q⌋ < 255 := by exact_mod_cast hq
    omega
  unfold rintQ
  split_ifs with ha hb hc
  · exact ⟨hf1, hf2⟩
  · exact ⟨by omega, hsucc ha⟩
  · exact ⟨hf1, hf2⟩
  · exact ⟨by omega, hsucc ha⟩

lemma coarse_of_mel_bounds (melMin melMax m : ℚ) :
    1 ≤ coarse_of_mel melMin melMax m ∧ coarse_of_mel melMin melMax m ≤ 255 := by
  unfold coarse_of_mel clamp_high clamp_low
  split_ifs <;> constructor <;> first | rfl | linarith

/-- C5: for every (finite) fine-pitch input, each coarse pitch bucket
produced by the mel quantization is an integer in `[1, 255]`; the mel
transform sends a zero (silent) fine pitch to mel value `0`, and mel
value `0` is bucketed to `1`, never `0`. -/
theorem c5_coarse_pitch_in_range :
    (∀ melMin melMax : ℚ, ∀ mels : List ℚ, ∀ c ∈ f0_to_coarse melMin melMax mels,
        1 ≤ c ∧ c ≤ 255)
    ∧ mel_scale 0 = 0
    ∧ (∀ melMin melMax : ℚ, rintQ (coarse_of_mel melMin melMax 0) = 1) := by
  refine ⟨?_, ?_, ?_⟩
  · intro melMin melMax mels c hc
    unfold f0_to_coarse at hc
    rcases List.mem_map.mp hc with ⟨m, _, rfl⟩
    obtain ⟨hl, hr⟩ := coarse_of_mel_bounds melMin melMax m
    exact rintQ_bounds _ hl hr
  · unfold mel_scale
    norm_num
  · intro melMin melMax
    have h0 : coarse_of_mel melMin melMax 0 = 1 := by
      unfold coarse_of_mel mel_rescaled clamp_low clamp_high
      norm_num
    rw [h0]
    unfold rintQ
    norm_num

/-- Witness for C5 at the concrete fine-pitch-zero input `[0]`. -/
theorem c5_coarse_pitch_in_range_witness :
    1 ≤ rintQ (coarse_of_mel 0 2595 0) ∧ rintQ (coarse_of_mel 0 2595 0) ≤ 255 :=
  c5_coarse_pitch_in_range.1 0 2595 [0] _ (by simp [f0_to_coarse])

/-- C3: the device callback never propagates an exception: on a raising
processing function, a `None` result, or a shape mismatch, the output
buffer is zero-filled and the callback returns normally (the model is a
total function into blocks). -/
theorem c3_device_callback_silence_on_error :
    ∀ (f : Audio → Except PErr (Option Audio)) (indata : Audio) (outLen : ℕ),
      ((∃ e, f indata = .error e) →
          audio_callback (some f) indata outLen = zeros outLen)
      ∧ (f indata = .ok none →
          audio_callback (some f) indata outLen = zeros outLen)
      ∧ (∀ d, f indata = .ok (some d) → d.length ≠ outLen →
          audio_callback (some f) indata outLen = zeros outLen) := by
  intro f indata outLen
  refine ⟨?_, ?_, ?_⟩
  · rintro ⟨e, he⟩
    simp [audio_callback, he]
  · intro h
    simp [audio_callback, h]
  · intro d hd hne
    simp [audio_callback, hd, hne]

/-- Witness for C3: a processing function that raises yields a zero-filled
output buffer. -/
theorem c3_device_callback_silence_on_error_witness :
    audio_callback (some fun _ => .error .procError) [1, 2] 3 = zeros 3 :=
  (c3_device_callback_silence_on_error (fun _ => .error .procError) [1, 2] 3).1
    ⟨.procError, rfl⟩

/-- C10: when the session is not ready, `process_chunk` returns an
all-zero block of the input's length and none of the delegated resources
(embedder, pitch predictor, retrieval index, generator) is invoked: the
returned trace is the default trace with every invocation flag `false`.
The source function contains no assignment to session state on this (or
any) path, so the session is read-only here by construction. -/
theorem c10_not_ready_returns_silence :
    ∀ (O : Oracles) (s : Session) (stg : Settings) (input : Audio),
      is_ready s = false →
      process_chunk O s stg input = .ok (zeros input.length, {}) ∧
        ({} : Trace).hubertCalled = false ∧
        ({} : Trace).pitchCalled = false ∧
        ({} : Trace).retrieveCalled = false ∧
        ({} : Trace).genCalled = false := by
  intro O s stg input h
  refine ⟨?_, rfl, rfl, rfl, rfl⟩
  unfold process_chunk
  split
  · simp_all
  · rfl

/-- Witness for C10 at a session whose generator is missing. -/
theorem c10_not_ready_returns_silence_witness :
    process_chunk exOracles exSessionNotReady exSettings [1, 2, 3] =
      .ok (zeros 3, {}) :=
  (c10_not_ready_returns_silence exOracles exSessionNotReady exSettings
    [1, 2, 3] (by rfl)).1

/-- C8: generator loading is idempotent by identity.  If a call to
`load_rvc_model` reports success, a second call with the same
`(model path, speaker id)` pair returns success, performs no heavy load
(flag `false`), and leaves the session (generator, target sample rate,
pipeline state) unchanged. -/
theorem c8_load_generator_idempotent :
    ∀ (torchLoad : String → Except PErr Cpt) (mkPipe : ℕ → Pipe)
      (s s1 : Session) (path : String) (sid : ℤ) (heavy : Bool),
      load_rvc_model torchLoad mkPipe s path sid = (true, s1, heavy) →
      load_rvc_model torchLoad mkPipe s1 path sid = (true, s1, false) := by
  intro tl mk s s1 path sid heavy h
  unfold load_rvc_model at h ⊢
  by_cases hg : s.netGLoaded = true ∧ s.currentModelPath = some path ∧
      s.sid = some sid
  · rw [if_pos hg] at h
    simp only [Prod.mk.injEq] at h
    obtain ⟨-, h2, h3⟩ := h
    subst h2
    rw [if_pos hg]
  · rw [if_neg hg] at h
    cases htl : tl path with
    | ok c =>
      rw [htl] at h
      simp only [Prod.mk.injEq] at h
      obtain ⟨-, h2, h3⟩ := h
      subst h2
      rw [if_pos (by constructor <;> simp)]
    | error e =>
      rw [htl] at h
      simp at h

/-- Witness for C8: a second load of the same model path and speaker id
after a successful first load is a no-op success. -/
theorem c8_load_generator_idempotent_witness :
    load_rvc_model exTorchLoad exMkPipe exSessionLoaded "model.pth" 0 =
      (true, exSessionLoaded, false) :=
  c8_load_generator_idempotent exTorchLoad exMkPipe exSessionEmpty
    exSessionLoaded "model.pth" 0 true (by rfl)

/-- C1 (code-bug record): whenever the stream is running with a ready
session and a set target rate, the scheduler callback raises `NameError`
instead of returning a shape-reconciled block, because the
shape-reconciliation check at realtime.py line 143 dereferences the
undefined name `mic_chunk_float_32` (the parameter is spelled
`mic_chunk_float32`).  The claimed shape-reconciled return is therefore
unreachable; the raised error is swallowed by the device callback, which
zero-fills the output. -/
theorem c1_shape_reconcile_raises_name_error :
    ∀ (resample : Audio → ℕ → ℕ → Audio)
      (vad : Option (Audio → Except PErr Bool)) (vadEnabled : Bool)
      (proc : Audio → Except PErr Audio) (t : ℕ) (mic : Audio),
      (audio_processing_callback resample vad vadEnabled proc
          true true (some t) mic).1 = .error .nameError := by
  intro resample vad vadEnabled proc t mic
  rfl

/-- C9: a raising VAD gate is treated as inactive for the call: the block
is handed to the chunk processor (rvcInvoked), and the intermediate block
is the processor's output, not a substituted silence block. -/
theorem c9_vad_error_treated_inactive :
    ∀ (resample : Audio → ℕ → ℕ → Audio) (v : Audio → Except PErr Bool)
      (proc : Audio → Except PErr Audio) (tgtSr : Option ℕ) (mic : Audio)
      (e : PErr) (r : Audio),
      v (resample mic 48000 16000) = .error e →
      proc (resample mic 48000 16000) = .ok r →
      (audio_processing_callback resample (some v) true proc
          true true tgtSr mic).2 =
        { rvcInvoked := true, processed := some r } := by
  intro resample v proc tgtSr mic e r hv hp
  cases tgtSr <;> simp [audio_processing_callback, hv, hp]

/-- Witness for C9 with a VAD oracle that raises on every block. -/
theorem c9_vad_error_treated_inactive_witness :
    (audio_processing_callback (fun a _ _ => a) (some fun _ => .error .vadError)
        true (fun a => .ok a) true true (some 16000) [0, 0]).2 =
      { rvcInvoked := true, processed := some [0, 0] } :=
  c9_vad_error_treated_inactive (fun a _ _ => a) (fun _ => .error .vadError)
    (fun a => .ok a) (some 16000) [0, 0] .vadError [0, 0] rfl rfl

/-- C2 counterexample: an unrecoverable error in the generation step is
not caught at the chunk processor's boundary: `process_chunk` contains no
handler and the call returns the raised error itself, not a silence block
of the expected output length. -/
theorem c2_counterexample_error_escapes_processor :
    process_chunk exOraclesGenErr exSession exSettings [0, 0, 0, 0] =
      .error .genError := by
  rfl

/-- C2 (amended): an error raised inside the chunk pipeline propagates
out of `process_chunk` and is caught one level up, by the scheduler
callback around the `process_chunk` call, which substitutes silence of
the feature-rate input block's length (not of the target-rate-scaled
expected output length); the chunk processor was invoked, and the
callback mutates no stream state. -/
theorem c2_amended_caller_catches_with_input_length_silence :
    ∀ (O : Oracles) (s : Session) (stg : Settings)
      (resample : Audio → ℕ → ℕ → Audio) (vadEnabled : Bool)
      (tgtSr : Option ℕ) (mic : Audio) (e : PErr),
      process_chunk O s stg (resample mic 48000 16000) = .error e →
      (audio_processing_callback resample none vadEnabled
          (fun a => (process_chunk O s stg a).map Prod.fst)
          true true tgtSr mic).2 =
        { rvcInvoked := true,
          processed := some (zeros (resample mic 48000 16000).length) } := by
  intro O s stg resample vadEnabled tgtSr mic e h
  cases vadEnabled <;> cases tgtSr <;>
    simp [audio_processing_callback, h, Except.map]

/-- Witness for C2 (amended): with the raising generator, the scheduler
substitutes a 4-sample silence block for the 4-sample feature-rate input
(the target-rate expected length would be 8 at tgt_sr = 32000). -/
theorem c2_amended_caller_catches_witness :
    (audio_processing_callback (fun a _ _ => a) none false
        (fun a => (process_chunk exOraclesGenErr exSession exSettings a).map
          Prod.fst)
        true true (some 32000) [0, 0, 0, 0]).2 =
      { rvcInvoked := true, processed := some (zeros 4) } :=
  c2_amended_caller_catches_with_input_length_silence exOraclesGenErr exSession
    exSettings (fun a _ _ => a) false (some 32000) [0, 0, 0, 0] .genError
    (by rfl)

/-- C6: when the raw generated waveform is at most twice the trim width,
the chunk processor does not throw; the trim step emits silence of the
expected length (input length times target rate over feature rate,
truncated as Python `int()`) when the raw output is shorter than half the
expected length, and the raw untrimmed output unchanged otherwise. -/
theorem c6_short_output_trim_fallback :
    ∀ (O : Oracles) (s : Session) (stg : Settings) (input : Audio)
      (pipe : Pipe) (tgt : ℕ) (F0 : Feats) (raw : Audio),
      s.pipe = some pipe → s.tgtSr = some tgt → is_ready s = true →
      s.useF0 = false → s.indexLoaded = false →
      O.hubert (reflect_pad (O.hpf input) pipe.tPad) = .ok F0 →
      (∀ fe n co fi, O.gen fe n co fi = .ok raw) →
      raw.length ≤ 2 * pipe.tPadTgt →
      ∃ out tr, process_chunk O s stg input = .ok (out, tr) ∧
        tr.trimmed = (if 2 * raw.length < input.length * tgt / pipe.sampleRate
                      then zeros (input.length * tgt / pipe.sampleRate)
                      else raw) := by
  intro O s stg input pipe tgt F0 raw hpipe htgt hready huse hidx hhub hgen hshort
  unfold process_chunk
  rw [hpipe, htgt, hready]
  simp only [huse, hhub, after_feats, retrieve_stage, hidx, hgen,
    Bool.false_eq_true, if_false, false_and, Option.map_none]
  refine ⟨_, _, rfl, ?_⟩
  show trim_output raw pipe.tPadTgt (input.length * tgt / pipe.sampleRate) = _
  unfold trim_output
  rw [if_neg (by omega)]

/-- Witness for C6: a one-sample raw waveform against a 4-sample input at
target rate 32000 (expected length 8) falls back to silence of length 8. -/
theorem c6_short_output_trim_fallback_witness :
    ∃ out tr, process_chunk exOracles exSession exSettings [0, 0, 0, 0] =
        .ok (out, tr) ∧ tr.trimmed = zeros 8 :=
  c6_short_output_trim_fallback exOracles exSession exSettings [0, 0, 0, 0]
    exPipe 32000 [[1], [1]] [1] rfl rfl rfl rfl rfl rfl (fun _ _ _ _ => rfl)
    (by decide)

/-- C4: on a pitch-using session, the frame count handed to generation is
the minimum of the upsampled feature length (twice the embedder's frame
count) and the padded-block frame count (padded length over window size),
and the coarse and fine pitch sequences passed on are the prefixes of
exactly that length. -/
theorem c4_length_alignment_minimum :
    ∀ (O : Oracles) (s : Session) (stg : Settings) (input : Audio)
      (pipe : Pipe) (tgt : ℕ) (padded : Audio) (pLen : ℕ)
      (c : List ℤ) (f : Audio) (F0 : Feats) (raw : Audio),
      s.pipe = some pipe → s.tgtSr = some tgt → is_ready s = true →
      s.useF0 = true → s.indexLoaded = false →
      padded = reflect_pad (O.hpf input) pipe.tPad →
      pLen = padded.length / pipe.window →
      pitch_stage O pipe stg padded pLen = .ok (c, f) →
      O.hubert padded = .ok F0 →
      (∀ fe n co fi, O.gen fe n co fi = .ok raw) →
      min (2 * F0.length) pLen ≤ c.length →
      min (2 * F0.length) pLen ≤ f.length →
      ∃ out tr, process_chunk O s stg input = .ok (out, tr) ∧
        tr.genPLen = min (2 * F0.length) pLen ∧
        tr.genCoarse = some (c.take (min (2 * F0.length) pLen)) ∧
        tr.genFine = some (f.take (min (2 * F0.length) pLen)) ∧
        (c.take (min (2 * F0.length) pLen)).length = min (2 * F0.length) pLen ∧
        (f.take (min (2 * F0.length) pLen)).length = min (2 * F0.length) pLen := by
  intro O s stg input pipe tgt padded pLen c f F0 raw hpipe htgt hready huse
    hidx hpad hplen hpitch hhub hgen hcl hfl
  subst hpad
  subst hplen
  unfold process_chunk
  rw [hpipe, htgt, hready]
  simp only [huse, hpitch, hhub, after_feats, retrieve_stage, hidx, hgen,
    Bool.false_eq_true, if_false, false_and, if_true, Option.map_some,
    upsample2_length]
  refine ⟨_, _, rfl, rfl, rfl, rfl, ?_, ?_⟩
  · simp [List.length_take]
    omega
  · simp [List.length_take]
    omega

/-- Witness for C4: four embedder frames upsampled to 4, padded frame
count 4, so generation receives frame count 4 and 4-element pitch
prefixes. -/
theorem c4_length_alignment_minimum_witness :
    ∃ out tr, process_chunk exOracles exSessionF0 exSettings [0, 0, 0, 0] =
        .ok (out, tr) ∧
      tr.genPLen = 4 ∧
      tr.genCoarse = some [1, 1, 1, 1] ∧
      tr.genFine = some [0, 0, 0, 0] ∧
      ([(1:ℤ), 1, 1, 1]).length = 4 ∧
      ([(0:ℚ), 0, 0, 0]).length = 4 :=
  c4_length_alignment_minimum exOracles exSessionF0 exSettings [0, 0, 0, 0]
    exPipe 32000 (reflect_pad (exOracles.hpf [0, 0, 0, 0]) exPipe.tPad)
    ((reflect_pad (exOracles.hpf [0, 0, 0, 0]) exPipe.tPad).length /
      exPipe.window)
    [1, 1, 1, 1] [0, 0, 0, 0] [[1], [1]] [1]
    rfl rfl rfl rfl rfl rfl rfl (by rfl) rfl (fun _ _ _ _ => rfl)
    (by decide) (by decide)

/-- C7: with pitch in use and protection strength below one half, the
features handed to generation are the mask-weighted blend of the
retrieval-mixed upsampled features with the upsampled pre-blend copy,
where the per-frame mask (built from the truncated fine pitch sequence)
is exactly 1 at frames with fine pitch strictly positive and exactly the
protection strength at every other frame. -/
theorem c7_voiceless_protection_blend :
    ∀ (O : Oracles) (s : Session) (stg : Settings) (input : Audio)
      (pipe : Pipe) (tgt : ℕ) (padded : Audio) (pLen : ℕ)
      (c : List ℤ) (f : Audio) (F0 F1 : Feats) (raw : Audio),
      s.pipe = some pipe → s.tgtSr = some tgt → is_ready s = true →
      s.useF0 = true → stg.protect < 1/2 →
      s.indexLoaded = true → 0 < stg.indexRate →
      padded = reflect_pad (O.hpf input) pipe.tPad →
      pLen = padded.length / pipe.window →
      pitch_stage O pipe stg padded pLen = .ok (c, f) →
      O.hubert padded = .ok F0 →
      O.retrieve F0 stg.indexRate = .ok F1 →
      (∀ fe n co fi, O.gen fe n co fi = .ok raw) →
      ∃ out tr, process_chunk O s stg input = .ok (out, tr) ∧
        tr.genFeats =
          mix3 (upsample2 F1)
            ((upsample2 F0).take (upsample2 F1).length)
            ((protect_mask (f.take (min (upsample2 F1).length pLen))
                stg.protect).take (upsample2 F1).length) ∧
        (∀ (f0 : Audio) (p : ℚ) (i : ℕ),
            (protect_mask f0 p)[i]? =
              f0[i]?.map fun v => if 0 < v then 1 else p) := by
  intro O s stg input pipe tgt padded pLen c f F0 F1 raw hpipe htgt hready huse
    hprot hidx hrate hpad hplen hpitch hhub hret hgen
  subst hpad
  subst hplen
  unfold process_chunk
  rw [hpipe, htgt, hready]
  simp only [huse, hpitch, hhub, after_feats, retrieve_stage, hidx, hrate,
    hprot, hret, hgen, if_true, Option.map_some, and_self, true_and,
    eq_self_iff_true, if_pos]
  refine ⟨_, _, rfl, rfl, ?_⟩
  intro f0 p i
  simp [protect_mask, List.getElem?_map]

/-- Witness for C7 at a silent fine pitch curve and protection strength
0: the mask is 0 at every frame and the blend keeps the pre-blend copy. -/
theorem c7_voiceless_protection_blend_witness :
    ∃ out tr,
      process_chunk exOracles exSessionIdx exSettingsProt [0, 0, 0, 0] =
        .ok (out, tr) ∧
      tr.genFeats = mix3 (upsample2 [[(1:ℚ)], [1]])
          ((upsample2 [[(1:ℚ)], [1]]).take 4)
          ((protect_mask [0, 0, 0, 0] 0).take 4) ∧
      (∀ (f0 : Audio) (p : ℚ) (i : ℕ),
          (protect_mask f0 p)[i]? =
            f0[i]?.map fun v => if 0 < v then 1 else p) :=
  c7_voiceless_protection_blend exOracles exSessionIdx exSettingsProt
    [0, 0, 0, 0] exPipe 32000
    (reflect_pad (exOracles.hpf [0, 0, 0, 0]) exPipe.tPad)
    ((reflect_pad (exOracles.hpf [0, 0, 0, 0]) exPipe.tPad).length /
      exPipe.window)
    [1, 1, 1, 1] [0, 0, 0, 0] [[1], [1]] [[1], [1]] [1]
    rfl rfl rfl rfl (by decide) rfl (by decide) rfl (by rfl) rfl rfl rfl
    (fun _ _ _ _ => rfl)

end RVC
